import Mathlib

/-!
Verification of the Kea configuration-backend client/provider
(`tools/kea` and `internal/provider`).

This file shallowly embeds the pure fragments of the Go source: the
subnet-ID derivation from a CIDR prefix, the command-request builders,
the response-envelope decoder (`checkResponse` / `Client.do`), the
IP/MAC validation performed by the reservation commands, the URL
normalization in `Client.make`, the credential resolution in
`Client.processOptions`, and the resource-level create/read/delete
control flow of `remote_subnet4_resource.go` and the reservation
resource.  Network transport is abstracted: model functions take the
already-received response body (the decoded JSON array, or a decode
failure) as an argument, and request construction is modelled
separately so that the issued commands are inspectable.
-/

namespace Kea

/-- JSON values, used for the heterogeneous `arguments` payloads
(`map[string]any` on the Go side) and raw response arguments
(`json.RawMessage`).  Numbers are modelled as integers: every value the
client sends or decodes in this repository is integral. -/
inductive Json where
  | null : Json
  | bool (b : Bool) : Json
  | num (n : Int) : Json
  | str (s : String) : Json
  | arr (xs : List Json) : Json
  | obj (fields : List (String × Json)) : Json

/-- Field lookup on a JSON object (first binding wins; the inputs built
and decoded here never carry duplicate keys). -/
def jGetField (j : Json) (key : String) : Option Json :=
  match j with
  | .obj fields => fields.lookup key
  | _ => none

/-! ## Go standard-library fragments used by the client -/

/-- `strings.Split(s, "/")[0]`: the portion of `s` before the first
`'/'` (all of `s` when there is none). -/
def goSplitFirstSlash (s : String) : String :=
  ⟨s.data.takeWhile (fun c => c ≠ '/')⟩

/-- `strings.NewReplacer(".", "", "/", "", " ", "").Replace`:
deletes every `'.'`, `'/'` and `' '` character
(`cidrToIDRepl` in `remote_subnet4_resource.go:21`). -/
def cidrToIDRepl (s : String) : String :=
  ⟨s.data.filter (fun c => ¬ (c = '.' ∨ c = '/' ∨ c = ' '))⟩

/-- Value of a non-empty list of decimal digit characters. -/
def digitsVal (ds : List Char) : Nat :=
  ds.foldl (fun acc c => 10 * acc + (c.toNat - '0'.toNat)) 0

/-- Go `%q`-style quoting as used in `strconv` error messages.  Escape
sequences for exotic characters are not modelled; the inputs reaching
this in the claims are plain ASCII. -/
def goQuote (s : String) : String := "\"" ++ s ++ "\""

/-- `strconv.Atoi`: an optional sign followed by at least one decimal
digit, rejecting anything else with an `invalid syntax` error and
values outside the 64-bit integer range with a `value out of range`
error. -/
def goAtoi (s : String) : Except String Int :=
  let syntaxErr : Except String Int :=
    .error ("strconv.Atoi: parsing " ++ goQuote s ++ ": invalid syntax")
  match s.data with
  | [] => syntaxErr
  | cs =>
    let (sign, ds) : Int × List Char :=
      match cs with
      | '+' :: r => (1, r)
      | '-' :: r => (-1, r)
      | r => (1, r)
    if ds = [] then syntaxErr
    else if ds.all Char.isDigit then
      let v : Int := sign * (digitsVal ds : Int)
      if v < -(2 ^ 63) ∨ v > 2 ^ 63 - 1 then
        .error ("strconv.Atoi: parsing " ++ goQuote s ++ ": value out of range")
      else .ok v
    else syntaxErr

/-- The subnet-ID derivation used by `remoteSubnet4Resource.Create` and
`.Update`: `strconv.Atoi(cidrToIDRepl.Replace(strings.Split(subnet, "/")[0]))`. -/
def derivedSubnetID (pfx : String) : Except String Int :=
  goAtoi (cidrToIDRepl (goSplitFirstSlash pfx))

/-- The same derivation, phrased the way the specification words it:
take the portion before `'/'`, remove all `'.'` characters and any
spaces (the `'/'` suffix is already gone), and parse the remaining
string as an integer. -/
def specSubnetID (pfx : String) : Except String Int :=
  goAtoi ⟨((goSplitFirstSlash pfx).data.filter (fun c => c ≠ '.' ∧ c ≠ ' '))⟩

/-! ## Entity data model (`tools/kea`) -/

/-- `Metadata` (`kea.go`): `server-tags`. -/
structure Metadata where
  serverTags : List String := []
  deriving Repr, DecidableEq, Inhabited

/-- `OptionData` (`remote_subnet4.go`): one option-data entry.  `Code`
and `Space` are pointers in Go, modelled as `Option`. -/
structure OptionData where
  code : Option Int := none
  data : String := ""
  name : String := ""
  space : Option String := none
  alwaysSend : Bool := false
  deriving Repr, DecidableEq, Inhabited

/-- `Pool` (`remote_subnet4.go`). -/
structure Pool where
  pool : String := ""
  deriving Repr, DecidableEq, Inhabited

/-- `Relay` (`remote_subnet4.go`): `ip-addresses,omitempty`. -/
structure Relay where
  ipAddresses : List String := []
  deriving Repr, DecidableEq, Inhabited

/-- `RemoteSubnet4` (`remote_subnet4.go`): a full subnet entry as
returned by get commands.  `shared-network-name` is `interface{}` and
`user-context` is `map[string]interface{}` in Go, modelled as raw JSON;
their zero values (`nil`) are `Json.null` and the empty field list. -/
structure RemoteSubnet4 where
  fourO6Interface : String := ""
  fourO6InterfaceID : String := ""
  fourO6Subnet : String := ""
  id : Int := 0
  metadata : Metadata := {}
  optionData : List OptionData := []
  pools : List Pool := []
  relay : Relay := {}
  sharedNetworkName : Json := Json.null
  subnet : String := ""
  userContext : List (String × Json) := []

/-- `RemoteSubnet4List` (`remote_subnet4.go`): the abbreviated subnet
entry returned by `remote-subnet4-list` and `remote-subnet4-set`. -/
structure RemoteSubnet4List where
  id : Int := 0
  metadata : Metadata := {}
  sharedNetworkName : String := ""
  subnet : String := ""
  deriving Repr, DecidableEq, Inhabited

/-- `NewRemoteSubnet4` (`remote_subnet4.go`): the payload sent by
`remote-subnet4-set`. -/
structure NewRemoteSubnet4 where
  id : Int := 0
  subnet : String := ""
  sharedNetworkName : Option String := none
  pools : List Pool := []
  optionData : List OptionData := []
  relay : Relay := {}
  userContext : List (String × String) := []
  deriving Repr, DecidableEq, Inhabited

/-- `Reservation` (`reservation.go`): a host reservation.
`user-context` is `map[string]any`, modelled as raw JSON fields. -/
structure Reservation where
  bootFileName : String := ""
  clientID : String := ""
  circuitID : String := ""
  duID : String := ""
  flexID : String := ""
  ipAddress : String := ""
  hwAddress : String := ""
  hostname : String := ""
  nextServer : String := ""
  optionData : List OptionData := []
  subnetID : Int := 0
  userContext : List (String × Json) := []

/-! ## JSON marshalling (mirrors `encoding/json` on the Go structs,
including `omitempty` and struct field order; map keys are emitted in
sorted order as `encoding/json` does) -/

/-- Marshal one `OptionData` (`code,omitempty` and `space,omitempty`
are pointers: omitted only when nil). -/
def encodeOptionData (o : OptionData) : Json :=
  .obj ((match o.code with
          | some c => [("code", Json.num c)]
          | none => [])
    ++ [("data", Json.str o.data), ("name", Json.str o.name)]
    ++ (match o.space with
          | some sp => [("space", Json.str sp)]
          | none => [])
    ++ [("always-send", Json.bool o.alwaysSend)])

/-- Marshal one `Pool`. -/
def encodePool (p : Pool) : Json := .obj [("pool", Json.str p.pool)]

/-- Marshal a `Relay`; its `ip-addresses` slice is `omitempty`. -/
def encodeRelay (r : Relay) : Json :=
  .obj (if r.ipAddresses = [] then []
        else [("ip-addresses", Json.arr (r.ipAddresses.map Json.str))])

/-- Marshal one `NewRemoteSubnet4`.  The `relay` struct field carries
`omitempty` but `encoding/json` never treats a struct as empty, so it
is always emitted; `user-context` is an `omitempty` map. -/
def encodeNewRemoteSubnet4 (n : NewRemoteSubnet4) : Json :=
  .obj ([("id", Json.num n.id), ("subnet", Json.str n.subnet),
         ("shared-network-name",
           match n.sharedNetworkName with
           | some s => Json.str s
           | none => Json.null),
         ("pools", Json.arr (n.pools.map encodePool)),
         ("option-data", Json.arr (n.optionData.map encodeOptionData)),
         ("relay", encodeRelay n.relay)]
    ++ (if n.userContext = [] then []
        else [("user-context",
               Json.obj (n.userContext.map (fun kv => (kv.1, Json.str kv.2))))]))

/-- Marshal one `Reservation` (string fields are `omitempty` except
`ip-address`, `hw-address` and `hostname`; `option-data` and
`user-context` are `omitempty`). -/
def encodeReservation (r : Reservation) : Json :=
  .obj ((if r.bootFileName = "" then [] else [("boot-file-name", Json.str r.bootFileName)])
    ++ (if r.clientID = "" then [] else [("client-id", Json.str r.clientID)])
    ++ (if r.circuitID = "" then [] else [("circuit-id", Json.str r.circuitID)])
    ++ (if r.duID = "" then [] else [("duid", Json.str r.duID)])
    ++ (if r.flexID = "" then [] else [("flex-id", Json.str r.flexID)])
    ++ [("ip-address", Json.str r.ipAddress),
        ("hw-address", Json.str r.hwAddress),
        ("hostname", Json.str r.hostname)]
    ++ (if r.nextServer = "" then [] else [("next-server", Json.str r.nextServer)])
    ++ (if r.optionData = [] then []
        else [("option-data", Json.arr (r.optionData.map encodeOptionData))])
    ++ [("subnet-id", Json.num r.subnetID)]
    ++ (if r.userContext.isEmpty then [] else [("user-context", Json.obj r.userContext)]))

/-! ## JSON unmarshalling (mirrors the `encoding/json` decodes the
client performs on response `arguments`).  Absent fields and JSON
`null` leave the Go zero value in place; a present field of the wrong
shape is a decode error. -/

/-- Decode a JSON value into a Go `int`. -/
def decodeInt : Json → Except String Int
  | .num n => .ok n
  | _ => .error "json: cannot unmarshal value into field of type int"

/-- Decode a JSON value into a Go `string`. -/
def decodeString : Json → Except String String
  | .str s => .ok s
  | _ => .error "json: cannot unmarshal value into field of type string"

/-- Decode a JSON value into a Go `bool`. -/
def decodeBool : Json → Except String Bool
  | .bool b => .ok b
  | _ => .error "json: cannot unmarshal value into field of type bool"

/-- Decode a JSON value into a Go slice via an element decoder. -/
def decodeListWith (dec : Json → Except String α) : Json → Except String (List α)
  | .arr xs => xs.mapM dec
  | _ => .error "json: cannot unmarshal value into field of type slice"

/-- Decode one object field: absent or `null` keeps the zero value. -/
def decField (j : Json) (key : String) (dflt : α)
    (dec : Json → Except String α) : Except String α :=
  match jGetField j key with
  | none => .ok dflt
  | some .null => .ok dflt
  | some v => dec v

/-- Decode a JSON value into `Metadata`. -/
def decodeMetadata : Json → Except String Metadata
  | .null => .ok {}
  | .obj fs => do
    let tags ← decField (.obj fs) "server-tags" [] (decodeListWith decodeString)
    .ok { serverTags := tags }
  | _ => .error "json: cannot unmarshal value into field of type Metadata"

/-- Decode a JSON value into `OptionData`. -/
def decodeOptionData : Json → Except String OptionData
  | .null => .ok {}
  | .obj fs => do
    let code ← decField (.obj fs) "code" none (fun j => (decodeInt j).map some)
    let dat ← decField (.obj fs) "data" "" decodeString
    let name ← decField (.obj fs) "name" "" decodeString
    let space ← decField (.obj fs) "space" none (fun j => (decodeString j).map some)
    let always ← decField (.obj fs) "always-send" false decodeBool
    .ok { code := code, data := dat, name := name, space := space, alwaysSend := always }
  | _ => .error "json: cannot unmarshal value into field of type OptionData"

/-- Decode a JSON value into a `Pool`. -/
def decodePool : Json → Except String Pool
  | .null => .ok {}
  | .obj fs => do
    let p ← decField (.obj fs) "pool" "" decodeString
    .ok { pool := p }
  | _ => .error "json: cannot unmarshal value into field of type Pool"

/-- Decode a JSON value into a `Relay`. -/
def decodeRelay : Json → Except String Relay
  | .null => .ok {}
  | .obj fs => do
    let ips ← decField (.obj fs) "ip-addresses" [] (decodeListWith decodeString)
    .ok { ipAddresses := ips }
  | _ => .error "json: cannot unmarshal value into field of type Relay"

/-- Decode a JSON value into a `RemoteSubnet4`. -/
def decodeRemoteSubnet4 : Json → Except String RemoteSubnet4
  | .null => .ok {}
  | .obj fs => do
    let j := Json.obj fs
    let i4 ← decField j "4o6-interface" "" decodeString
    let i4id ← decField j "4o6-interface-id" "" decodeString
    let s4 ← decField j "4o6-subnet" "" decodeString
    let id ← decField j "id" 0 decodeInt
    let md ← decField j "metadata" {} decodeMetadata
    let od ← decField j "option-data" [] (decodeListWith decodeOptionData)
    let pools ← decField j "pools" [] (decodeListWith decodePool)
    let relay ← decField j "relay" {} decodeRelay
    let snn := (jGetField j "shared-network-name").getD Json.null
    let subnet ← decField j "subnet" "" decodeString
    let uc ← decField j "user-context" []
      (fun v => match v with
        | .obj gs => .ok gs
        | _ => .error "json: cannot unmarshal value into field of type map")
    .ok { fourO6Interface := i4, fourO6InterfaceID := i4id, fourO6Subnet := s4,
          id := id, metadata := md, optionData := od, pools := pools,
          relay := relay, sharedNetworkName := snn, subnet := subnet,
          userContext := uc }
  | _ => .error "json: cannot unmarshal value into field of type RemoteSubnet4"

/-- Decode a JSON value into a `RemoteSubnet4List`. -/
def decodeRemoteSubnet4List : Json → Except String RemoteSubnet4List
  | .null => .ok {}
  | .obj fs => do
    let j := Json.obj fs
    let id ← decField j "id" 0 decodeInt
    let md ← decField j "metadata" {} decodeMetadata
    let snn ← decField j "shared-network-name" "" decodeString
    let subnet ← decField j "subnet" "" decodeString
    .ok { id := id, metadata := md, sharedNetworkName := snn, subnet := subnet }
  | _ => .error "json: cannot unmarshal value into field of type RemoteSubnet4List"

/-- The anonymous `struct { Subnets []RemoteSubnet4 }` decode target of
the subnet get commands. -/
structure SubnetsArgs where
  subnets : List RemoteSubnet4 := []

/-- Decode response `arguments` into `SubnetsArgs`. -/
def decodeSubnetsArgs : Json → Except String SubnetsArgs
  | .null => .ok {}
  | .obj fs => do
    let s ← decField (.obj fs) "subnets" [] (decodeListWith decodeRemoteSubnet4)
    .ok { subnets := s }
  | _ => .error "json: cannot unmarshal value into struct"

/-- The anonymous `struct { Subnets []RemoteSubnet4List }` decode
target of `remote-subnet4-list` and `remote-subnet4-set`. -/
structure SubnetsListArgs where
  subnets : List RemoteSubnet4List := []
  deriving Repr, DecidableEq, Inhabited

/-- Decode response `arguments` into `SubnetsListArgs`. -/
def decodeSubnetsListArgs : Json → Except String SubnetsListArgs
  | .null => .ok {}
  | .obj fs => do
    let s ← decField (.obj fs) "subnets" [] (decodeListWith decodeRemoteSubnet4List)
    .ok { subnets := s }
  | _ => .error "json: cannot unmarshal value into struct"

/-- Decode into `interface{}` — anything succeeds (used by
`ReservationDel`'s `var ret interface{}`). -/
def decodeAny (j : Json) : Except String Json := .ok j

/-! ## Response envelope (`kea.go`: `checkResponse` and `Client.do`) -/

/-- One element of the JSON-array body every Kea command returns:
`{result, text, arguments}`.  `arguments` is a `json.RawMessage`;
`none` models an absent/empty raw payload (whose decode yields
`io.EOF`, which `do` tolerates). -/
structure Response where
  result : Int := 0
  text : String := ""
  arguments : Option Json := none

/-- The HTTP response body after `json.Decode` into `[]Response`:
either the decoded array or the decode failure. -/
abbrev Body : Type := Except String (List Response)

/-- `checkResponse` (`kea.go:123`): fail when the body does not decode
or the array is empty; return the first element when its `result` is 0;
otherwise synthesize the `result:<code>(<text>)` error. -/
def checkResponse (body : Body) : Except String Response :=
  match body with
  | .error e => .error ("checkResponse.json.Unmarshal(" ++ e ++ ")")
  | .ok [] => .error "checkResponse(Unable to find response in [])"
  | .ok (r :: _) =>
    if r.result = 0 then .ok r
    else .error ("result:" ++ toString r.result ++ "(" ++ r.text ++ ")")

/-- `Client.do` (`kea.go:141`), transport abstracted: run
`checkResponse`, then decode `arguments` into the caller-supplied
target.  `target = none` models a nil `v` (no decode); an absent
`arguments` payload decodes to `io.EOF`, which is tolerated, leaving
the target at its zero value (`none` in the returned pair). -/
def clientDo (body : Body) (target : Option (Json → Except String α)) :
    Except String (Response × Option α) :=
  match checkResponse body with
  | .error e => .error e
  | .ok res =>
    match target with
    | none => .ok (res, none)
    | some dec =>
      match res.arguments with
      | none => .ok (res, none)
      | some j =>
        match dec j with
        | .error e => .error ("failure decoding payload: " ++ e)
        | .ok v => .ok (res, some v)

/-- Outcome of a Go function call at its public interface: a normal
return, an error return, or a runtime panic. -/
inductive GoResult (α : Type) where
  | ok (a : α)
  | err (e : String)
  | crash (msg : String)

/-! ## Command requests (`Request` in `kea.go`; builders in
`remote_subnet4.go` / `reservation.go`) -/

/-- The `Request` payload `{command, arguments, service}`.  The
`arguments` map is kept as a JSON object whose fields are listed in
sorted key order, matching `encoding/json` map marshalling. -/
structure KeaRequest where
  command : String
  service : List String := []
  arguments : Option Json := none

/-- `remote-subnet4-set` request (`Client.RemoteSubnet4Set`). -/
def remoteSubnet4SetRequest (remote : String) (subnets : List NewRemoteSubnet4) :
    KeaRequest :=
  { command := "remote-subnet4-set", service := ["dhcp4"],
    arguments := some (.obj
      [("remote", .obj [("type", .str remote)]),
       ("server-tags", .arr [.str "all"]),
       ("subnets", .arr (subnets.map encodeNewRemoteSubnet4))]) }

/-- `remote-subnet4-get-by-prefix` request. -/
def remoteSubnet4GetByPrefixRequest (remote pfx : String) : KeaRequest :=
  { command := "remote-subnet4-get-by-prefix", service := ["dhcp4"],
    arguments := some (.obj
      [("remote", .obj [("type", .str remote)]),
       ("subnets", .arr [.obj [("subnet", .str pfx)]])]) }

/-- `remote-subnet4-get-by-id` request. -/
def remoteSubnet4GetByIDRequest (remote : String) (id : Int) : KeaRequest :=
  { command := "remote-subnet4-get-by-id", service := ["dhcp4"],
    arguments := some (.obj
      [("remote", .obj [("type", .str remote)]),
       ("subnets", .arr [.obj [("id", .num id)]])]) }

/-- `remote-subnet4-del-by-prefix` request. -/
def remoteSubnet4DelByPrefixRequest (remote pfx : String) : KeaRequest :=
  { command := "remote-subnet4-del-by-prefix", service := ["dhcp4"],
    arguments := some (.obj
      [("remote", .obj [("type", .str remote)]),
       ("subnets", .arr [.obj [("subnet", .str pfx)]])]) }

/-- Response handling of `Client.RemoteSubnet4Set`: decode the
`subnets` list from `arguments` and return it (the zero value when the
payload was empty). -/
def remoteSubnet4SetCall (body : Body) : Except String (List RemoteSubnet4List) :=
  match clientDo body (some decodeSubnetsListArgs) with
  | .error e => .error e
  | .ok (_, v) => .ok (v.getD {}).subnets

/-- Response handling of `Client.RemoteSubnet4GetByPrefix`
(`remote_subnet4.go:92`): on any `do` error the zero subnet and the
error are returned; on success the code returns `ret.Subnets[0]`
unconditionally, which panics when the decoded list is empty. -/
def remoteSubnet4GetByPrefixCall (body : Body) : GoResult RemoteSubnet4 :=
  match clientDo body (some decodeSubnetsArgs) with
  | .error e => .err e
  | .ok (_, v) =>
    match (v.getD {}).subnets with
    | [] => .crash "index out of range [0] with length 0"
    | s :: _ => .ok s

/-- Response handling of `Client.RemoteSubnet4GetByID`
(`remote_subnet4.go:119`): identical shape, including the unconditional
`ret.Subnets[0]`. -/
def remoteSubnet4GetByIDCall (body : Body) : GoResult RemoteSubnet4 :=
  match clientDo body (some decodeSubnetsArgs) with
  | .error e => .err e
  | .ok (_, v) =>
    match (v.getD {}).subnets with
    | [] => .crash "index out of range [0] with length 0"
    | s :: _ => .ok s

/-! ## `net.ParseIP` and `net.ParseMAC` (the validation used by
`ReservationAdd` / `ReservationDel`) -/

/-- Decimal prefix of a dotted-quad field: value and number of digits
consumed (`dtoi`). -/
def v4Field (cs : List Char) : List Char × List Char :=
  (cs.takeWhile Char.isDigit, cs.dropWhile Char.isDigit)

/-- The IPv4 dotted-decimal parse inside `net.ParseIP`: four decimal
fields separated by `'.'`, each `0..255`, no empty field, no leading
zeros, nothing left over.  Returns the four octets. -/
def parseV4Fields : Nat → List Char → Option (List Nat)
  | _, [] => none
  | fuel, cs =>
    let (ds, rest) := v4Field cs
    if ds = [] then none
    else
      let n := digitsVal ds
      if n > 255 then none
      else if ds.length > 1 ∧ ds.head? = some '0' then none
      else
        match fuel, rest with
        | 0, _ => none
        | 1, [] => some [n]
        | 1, _ => none
        | Nat.succ k, '.' :: rest2 => (parseV4Fields k rest2).map (n :: ·)
        | Nat.succ _, _ => none

/-- `net.ParseIP`: scan for the first `'.'` or `':'`; a `'.'` selects
the IPv4 dotted-decimal parse.  IPv6 literal parsing (the `':'` branch)
is not modelled — no claim about this repository involves an IPv6
input, every modelled caller feeds IPv4 strings — so a `':'` string is
treated as unparseable here. -/
def parseIP (s : String) : Option (List Nat) :=
  match s.data.find? (fun c => c = '.' ∨ c = ':') with
  | some '.' => parseV4Fields 4 s.data
  | _ => none

/-- Hex-digit test (`isHexDigit` in Go's `net` parse helpers). -/
def isHexChar (c : Char) : Bool :=
  c.isDigit ∨ ('a' ≤ c ∧ c ≤ 'f') ∨ ('A' ≤ c ∧ c ≤ 'F')

/-- Value of a hex digit character. -/
def hexCharVal (c : Char) : Nat :=
  if c.isDigit then c.toNat - '0'.toNat
  else if 'a' ≤ c ∧ c ≤ 'f' then c.toNat - 'a'.toNat + 10
  else c.toNat - 'A'.toNat + 10

/-- The separator-delimited two-hex-digit groups of `net.ParseMAC`'s
colon/hyphen branch: `xx`, `xx<sep>xx`, ... -/
def parseHexPairs (sep : Char) : List Char → Option (List Nat)
  | [a, b] =>
    if isHexChar a ∧ isHexChar b then some [hexCharVal a * 16 + hexCharVal b]
    else none
  | a :: b :: c :: rest =>
    if isHexChar a ∧ isHexChar b ∧ c = sep then
      (parseHexPairs sep rest).map ((hexCharVal a * 16 + hexCharVal b) :: ·)
    else none
  | _ => none

/-- The dot-delimited four-hex-digit groups of `net.ParseMAC`'s dotted
branch: `xxxx`, `xxxx.xxxx`, ... (each group is two bytes). -/
def parseHexQuads : List Char → Option (List Nat)
  | [a, b, c, d] =>
    if isHexChar a ∧ isHexChar b ∧ isHexChar c ∧ isHexChar d then
      some [hexCharVal a * 16 + hexCharVal b, hexCharVal c * 16 + hexCharVal d]
    else none
  | a :: b :: c :: d :: e :: rest =>
    if isHexChar a ∧ isHexChar b ∧ isHexChar c ∧ isHexChar d ∧ e = '.' then
      (parseHexQuads rest).map
        (fun tl => (hexCharVal a * 16 + hexCharVal b) :: (hexCharVal c * 16 + hexCharVal d) :: tl)
    else none
  | _ => none

/-- `net.ParseMAC`: accepts colon-, hyphen- or dot-separated hex forms
of 6, 8 or 20 bytes; anything shorter than 14 characters or otherwise
malformed is rejected.  Returns the byte values. -/
def parseMAC (s : String) : Option (List Nat) :=
  let cs := s.data
  let len := cs.length
  if len < 14 then none
  else
    match cs.get? 2 with
    | some c2 =>
      if c2 = ':' ∨ c2 = '-' then
        if (len + 1) % 3 ≠ 0 then none
        else
          let n := (len + 1) / 3
          if n ≠ 6 ∧ n ≠ 8 ∧ n ≠ 20 then none
          else parseHexPairs c2 cs
      else
        match cs.get? 4 with
        | some '.' =>
          if (len + 1) % 5 ≠ 0 then none
          else
            let n := 2 * (len + 1) / 5
            if n ≠ 6 ∧ n ≠ 8 ∧ n ≠ 20 then none
            else parseHexQuads cs
        | _ => none
    | none => none

/-- The hex digits used by `HardwareAddr.String` (the string constant
`hexDigit = "0123456789abcdef"` in Go's `net` package). -/
def hexDigit (n : Nat) : Char :=
  "0123456789abcdef".data.getD n '0'

/-- The two lowercase hex characters of one byte. -/
def byteHexChars (b : Nat) : List Char :=
  [hexDigit (b / 16 % 16), hexDigit (b % 16)]

/-- Character list of `HardwareAddr.String`: lowercase hex byte pairs
joined by `':'`. -/
def macChars : List Nat → List Char
  | [] => []
  | [b] => byteHexChars b
  | b :: rest => byteHexChars b ++ ':' :: macChars rest

/-- `HardwareAddr.String`: the canonical colon-separated lowercase
rendering of a parsed MAC. -/
def macString (bytes : List Nat) : String := ⟨macChars bytes⟩

/-- Canonical-form test: every character is a lowercase hex digit or a
colon. -/
def isLowerHexColon (s : String) : Bool :=
  s.data.all (fun c => c ∈ "0123456789abcdef:".data)

/-! ## Reservation commands (`reservation.go`) -/

/-- The sentinel errors of `error.go`. -/
inductive KeaErr where
  | invalidIP
  | invalidMAC
  | invalidSubnet
  | protocol (msg : String)
  deriving Repr, DecidableEq

/-- `error.Error()` text of each sentinel (`errors.New` strings). -/
def KeaErr.message : KeaErr → String
  | .invalidIP => "invalid IP address"
  | .invalidMAC => "invalid MAC address"
  | .invalidSubnet => "invalid subnet ID"
  | .protocol m => m

/-- The validation and request construction of `Client.ReservationAdd`
(`reservation.go:49`): reject an unparseable IP, normalize the MAC via
`net.ParseMAC` + `HardwareAddr.String` (rejecting failures), then build
the `reservation-add` request.  Both rejections happen before any
request exists. -/
def reservationAddRequest (res : Reservation) : Except KeaErr KeaRequest :=
  if (parseIP res.ipAddress).isNone then .error .invalidIP
  else
    match parseMAC res.hwAddress with
    | some bytes =>
      let res' := { res with hwAddress := macString bytes }
      .ok { command := "reservation-add", service := ["dhcp4"],
            arguments := some (.obj [("reservation", encodeReservation res')]) }
    | none => .error .invalidMAC

/-- The validation and request construction of `Client.ReservationDel`
(`reservation.go:80`): only the IP address is validated — the operation
takes no MAC at all. -/
def reservationDelRequest (ipAddress : String) (subnetID : Int) :
    Except KeaErr KeaRequest :=
  if (parseIP ipAddress).isNone then .error .invalidIP
  else
    .ok { command := "reservation-del", service := ["dhcp4"],
          arguments := some (.obj
            [("ip-address", .str ipAddress), ("subnet-id", .num subnetID)]) }

/-- `Client.ReservationAdd` end to end, transport abstracted: validate
and build the request, then run `do` on the supplied response body
(decode target `struct { Options []OptionReq }`, whose content the
function discards). -/
def reservationAddCall (res : Reservation) (body : Body) : Except KeaErr Unit :=
  match reservationAddRequest res with
  | .error e => .error e
  | .ok _ =>
    match clientDo body (some decodeAny) with
    | .error e => .error (.protocol e)
    | .ok _ => .ok ()

/-- `Client.ReservationDel` end to end, transport abstracted
(`var ret interface{}` decodes anything). -/
def reservationDelCall (ipAddress : String) (subnetID : Int) (body : Body) :
    Except KeaErr Unit :=
  match reservationDelRequest ipAddress subnetID with
  | .error e => .error e
  | .ok _ =>
    match clientDo body (some decodeAny) with
    | .error e => .error (.protocol e)
    | .ok _ => .ok ()

/-! ## Transport request construction (`Client.make`, `kea.go:67`) -/

/-- Go `strings.HasPrefix`. -/
def goHasPrefix (s pre : String) : Bool := pre.data.isPrefixOf s.data

/-- Go `strings.HasSuffix`. -/
def goHasSuffix (s suf : String) : Bool := suf.data.isSuffixOf s.data

/-- The URL normalization in `Client.make`: prepend `https://` when the
string does not already start with it, then append `/` when it does not
already end with one. -/
def normalizeURL (url : String) : String :=
  let u1 := if goHasPrefix url "https://" then url else "https://" ++ url
  if goHasSuffix u1 "/" then u1 else u1 ++ "/"

/-- The constructed HTTP request: method, normalized URL, the two fixed
headers, Basic-auth credentials and the encoded command payload. -/
structure HTTPRequest where
  method : String
  url : String
  contentType : String
  accept : String
  authUsername : String
  authPassword : String
  payload : KeaRequest

/-- Client configuration fixed at construction. -/
structure ClientCfg where
  remote : String := "postgresql"
  username : String := ""
  password : String := ""

/-- `Client.make`: build the request with normalized URL, JSON headers
and Basic auth. -/
def clientMake (c : ClientCfg) (method url : String) (payload : KeaRequest) :
    HTTPRequest :=
  { method := method, url := normalizeURL url,
    contentType := "application/json", accept := "application/json",
    authUsername := c.username, authPassword := c.password, payload := payload }

/-- Every entity command dispatches through
`c.make(http.MethodPost, hostname, payload, nil)`: the method is always
`POST`. -/
def commandHTTPRequest (c : ClientCfg) (hostname : String) (payload : KeaRequest) :
    HTTPRequest :=
  clientMake c "POST" hostname payload

/-! ## Credential resolution (`Client.processOptions`, unnamed part
`part_000`) -/

/-- Basic-auth credentials. -/
structure Auth where
  username : String := ""
  password : String := ""
  deriving Repr, DecidableEq, Inhabited

/-- The credential pair `processOptions` selects before its fatal
check: the explicit `WithAuth` option when present, otherwise the
`KEA_USERNAME` / `KEA_PASSWORD` environment variables (`os.Getenv`
yields `""` for an unset variable). -/
def chosenAuth (explicit : Option Auth) (getenv : String → String) : Auth :=
  match explicit with
  | some a => a
  | none => { username := getenv "KEA_USERNAME", password := getenv "KEA_PASSWORD" }

/-- Credential resolution including the fatal check: when either
resolved field is empty, `processOptions` calls `logrus.Fatalf` and no
usable client is ever produced (`none`). -/
def resolveAuth (explicit : Option Auth) (getenv : String → String) : Option Auth :=
  let a := chosenAuth explicit getenv
  if a.username = "" ∨ a.password = "" then none else some a

/-! ## Resource layer (`internal/provider`) -/

/-- One `resp.Diagnostics.AddError(summary, detail)` entry. -/
structure Diag where
  summary : String
  detail : String
  deriving Repr, DecidableEq

/-- Outcome of a resource lifecycle method: success, accumulated
diagnostics, or a runtime panic propagated from the client. -/
inductive TFResult (α : Type) where
  | ok (a : α)
  | failed (diags : List Diag)
  | crash (msg : String)

/-- An `option_data` block of the subnet resource schema
(`remoteSubnet4OptionResourceModel`). -/
structure SubnetOptionCfg where
  code : Int := 0
  name : String := ""
  data : String := ""
  alwaysSend : Bool := false
  deriving Repr, DecidableEq, Inhabited

/-- The `remoteSubnet4ResourceSchema` configuration as read from
Terraform.  A `types.String` that is null or unknown is `none`; its
`ValueString()` is then `""`, exactly what the emptiness checks test. -/
structure SubnetCfg where
  hostname : Option String := none
  subnet : Option String := none
  pools : List String := []
  optionData : List SubnetOptionCfg := []
  relay : List String := []
  deriving Repr, DecidableEq, Inhabited

/-- `types.String.ValueString()`: the empty string for null/unknown. -/
def valueString (o : Option String) : String := o.getD ""

/-- The Terraform state the subnet resource persists. -/
structure SubnetState where
  hostname : String := ""
  id : Int := 0
  optionData : List SubnetOptionCfg := []
  pools : List String := []
  relay : List String := []
  subnet : String := ""
  deriving Repr, DecidableEq, Inhabited

/-- The required-field diagnostics shared by the subnet resource's
Create/Read/Update/Delete (both summaries read `RemoteSubnet4Read` in
the source). -/
def subnetRequiredDiags (cfg : SubnetCfg) : List Diag :=
  (if valueString cfg.subnet = "" then
    [⟨"RemoteSubnet4Read", "Subnet4 prefix is required"⟩] else [])
  ++ (if valueString cfg.hostname = "" then
    [⟨"RemoteSubnet4Read", "Hostname is required"⟩] else [])

/-- The `kea.NewRemoteSubnet4` literal `remoteSubnet4Resource.Create`
builds from the configuration and the derived ID. -/
def newSubnetOf (cfg : SubnetCfg) (id : Int) : NewRemoteSubnet4 :=
  { id := id, subnet := valueString cfg.subnet,
    sharedNetworkName := none,
    pools := cfg.pools.map (fun p => { pool := p }),
    optionData := cfg.optionData.map (fun o =>
      { code := some o.code, name := o.name, data := o.data,
        alwaysSend := o.alwaysSend }),
    relay := if cfg.relay = [] then {} else { ipAddresses := cfg.relay },
    userContext := [] }

/-- The commands `remoteSubnet4Resource.Create` issues before any
response is consumed: after validation and ID derivation it performs a
single `RemoteSubnet4Set` call carrying the one new subnet; when the
prefix does not parse it stops with the parse diagnostic and issues
nothing. -/
def subnetCreateRequests (remote : String) (cfg : SubnetCfg) :
    Except (List Diag) (List KeaRequest) :=
  let ds := subnetRequiredDiags cfg
  if ds ≠ [] then .error ds
  else
    match derivedSubnetID (valueString cfg.subnet) with
    | .error e =>
      .error [⟨"RemoteSubnet4Create",
               "Unable to parse subnet4 prefix `" ++ valueString cfg.subnet
                 ++ "`, got error: " ++ e⟩]
    | .ok id => .ok [remoteSubnet4SetRequest remote [newSubnetOf cfg id]]

/-- `remoteSubnet4Resource.Create` end to end, transport abstracted:
validate, derive the ID, send the single set command and fold the
response into state.  The `%v` dump of the payload inside the failure
detail renders Go pointer addresses and is not a pure function of the
value, so it is abbreviated to `<payload>`. -/
def subnetResourceCreate (_remote : String) (cfg : SubnetCfg) (body : Body) :
    TFResult SubnetState :=
  let ds := subnetRequiredDiags cfg
  if ds ≠ [] then .failed ds
  else
    match derivedSubnetID (valueString cfg.subnet) with
    | .error e =>
      .failed [⟨"RemoteSubnet4Create",
                "Unable to parse subnet4 prefix `" ++ valueString cfg.subnet
                  ++ "`, got error: " ++ e⟩]
    | .ok id =>
      match remoteSubnet4SetCall body with
      | .error e =>
        .failed [⟨"RemoteSubnet4Create",
                  "Unable to create subnet with new id=" ++ toString id
                    ++ " in Kea, got error: " ++ e ++ " | <payload>"⟩]
      | .ok respData =>
        match respData with
        | [r] =>
          .ok { hostname := valueString cfg.hostname, id := r.id,
                optionData := cfg.optionData, pools := cfg.pools,
                relay := cfg.relay, subnet := r.subnet }
        | _ =>
          .failed [⟨"RemoteSubnet4Update",
                    "Unable to create subnet4 with new id=" ++ toString id
                      ++ " in Kea,, got error: %!s(<nil>)"⟩]

/-- Substring test: does `needle` occur contiguously in the list? -/
def listContains (needle : List Char) : List Char → Bool
  | [] => needle.isPrefixOf []
  | c :: rest => needle.isPrefixOf (c :: rest) || listContains needle rest

/-- Go `strings.Contains(e, "not found")`. -/
def containsNotFound (e : String) : Bool :=
  listContains "not found".data e.data

/-- State written by `remoteSubnet4Resource.Read` from a (possibly
zero) `RemoteSubnet4`. -/
def subnetStateOf (cfg : SubnetCfg) (s : RemoteSubnet4) : SubnetState :=
  { hostname := valueString cfg.hostname, id := s.id,
    optionData := s.optionData.map (fun v =>
      { code := v.code.getD 0, data := v.data, name := v.name,
        alwaysSend := v.alwaysSend }),
    pools := s.pools.map (fun p => p.pool),
    relay := s.relay.ipAddresses,
    subnet := s.subnet }

/-- `remoteSubnet4Resource.Read` end to end, transport abstracted:
validate, call `RemoteSubnet4GetByPrefix`, and keep only errors whose
text lacks `"not found"`; in the benign branch the zero subnet the
client returned alongside the error is folded into state. -/
def subnetResourceRead (cfg : SubnetCfg) (body : Body) : TFResult SubnetState :=
  let ds := subnetRequiredDiags cfg
  if ds ≠ [] then .failed ds
  else
    match remoteSubnet4GetByPrefixCall body with
    | .crash m => .crash m
    | .err e =>
      if ¬ containsNotFound e then
        .failed [⟨"RemoteSubnet4GetByPrefix",
                  "Unable to read example, got error: " ++ e⟩]
      else .ok (subnetStateOf cfg {})
    | .ok s => .ok (subnetStateOf cfg s)

/-- The reservation resource configuration fields its `Delete` method
touches (`reservationResource.Delete`, unnamed part `part_004`). -/
structure ReservationDelCfg where
  hostname : Option String := none
  reservationHostname : Option String := none
  ipAddress : Option String := none
  subnetID : Option Int := none
  deriving Repr, DecidableEq, Inhabited

/-- `reservationResource.Delete` end to end, transport abstracted:
validate the four required fields, call `ReservationDel`, and surface
any error it returns — including a `result:3` not-found protocol error
— as an `AddError` diagnostic.  No not-found filtering happens on this
path. -/
def reservationResourceDelete (cfg : ReservationDelCfg) (body : Body) :
    TFResult Unit :=
  let ds :=
    (if cfg.subnetID.isNone then
      [⟨"ReservationDel", "`subnet_id` is required"⟩] else [])
    ++ (if valueString cfg.hostname = "" then
      [⟨"ReservationDel", "`hostname` field is required"⟩] else [])
    ++ (if valueString cfg.reservationHostname = "" then
      [⟨"ReservationDel", "`reservation_hostname` field is required"⟩] else [])
    ++ (if valueString cfg.ipAddress = "" then
      [⟨"ReservationDel", "`ip_address` field is required"⟩] else [])
  if ds ≠ [] then .failed ds
  else
    match reservationDelCall (valueString cfg.ipAddress) (cfg.subnetID.getD 0) body with
    | .error e =>
      .failed [⟨"ReservationDel",
                "Unable to delete reservation, got error: " ++ e.message⟩]
    | .ok _ => .ok ()

/-- Scenario A configuration: the desired subnet of the spec's
end-to-end create scenario (matching `examples/.../resource.tf`). -/
def scenarioACfg : SubnetCfg :=
  { hostname := some "kea-primary.example.com",
    subnet := some "192.168.225.0/24",
    pools := ["192.168.225.50-192.168.225.150"],
    relay := ["192.168.225.1"],
    optionData :=
      [{ code := 3, name := "routers", data := "192.168.225.1" },
       { code := 15, name := "domain-name", data := "example.com" },
       { code := 6, name := "domain-name-servers", data := "4.2.2.2, 8.8.8.8",
         alwaysSend := true }] }

/-- Scenario A simulated success response: the server acknowledges the
set command and echoes the stored subnet. -/
def scenarioABody : Body :=
  .ok [{ result := 0, text := "IPv4 subnet successfully set.",
         arguments := some (.obj
           [("subnets", .arr [.obj [("id", .num 1921682250),
                                    ("subnet", .str "192.168.225.0/24")]])]) }]

/-- The `hw-address` string transmitted by a reservation create: the
`reservation` object of the built request, at its `hw-address` field. -/
def sentHwAddress (r : Except KeaErr KeaRequest) : Option String :=
  match r with
  | .ok req =>
    match req.arguments with
    | some args =>
      match jGetField args "reservation" with
      | some resv =>
        match jGetField resv "hw-address" with
        | some (.str s) => some s
        | _ => none
      | none => none
    | none => none
  | .error _ => none

/-! ## Helper lemmas -/

/-- The replacer applied after the split never sees a `'/'`, so
deleting `{'.', '/', ' '}` there is the same as deleting `{'.', ' '}`. -/
theorem cidrToIDRepl_splitFirst (s : String) :
    cidrToIDRepl (goSplitFirstSlash s) =
      ⟨(goSplitFirstSlash s).data.filter (fun c => c ≠ '.' ∧ c ≠ ' ')⟩ := by
  unfold cidrToIDRepl goSplitFirstSlash
  congr 1
  apply List.filter_congr
  intro c hc
  have h := List.mem_takeWhile_imp hc
  simp only [decide_eq_true_eq] at h
  simp [h]

/-- `subnetRequiredDiags` is empty when both required fields are
non-empty. -/
theorem subnetRequiredDiags_nil (cfg : SubnetCfg)
    (hs : valueString cfg.subnet ≠ "") (hh : valueString cfg.hostname ≠ "") :
    subnetRequiredDiags cfg = [] := by
  simp [subnetRequiredDiags, hs, hh]

/-- C1: the derived numeric subnet ID equals the integer obtained by
taking the portion of the prefix before `'/'`, removing all `'.'`
characters (and the `'/'` suffix and any spaces) and parsing the
remaining string; the derivation is a pure deterministic function;
`192.168.225.0/24` yields `1921682250`; and when the derived string
does not parse as an integer, the create path stops with a descriptive
parse diagnostic and issues no command at all, while a successful
derivation flows into the single issued set command. -/
theorem C1_subnet_id_derivation :
    (∀ P : String, derivedSubnetID P = specSubnetID P)
    ∧ (∀ (P : String) (n₁ n₂ : Int),
        derivedSubnetID P = .ok n₁ → derivedSubnetID P = .ok n₂ → n₁ = n₂)
    ∧ derivedSubnetID "192.168.225.0/24" = .ok 1921682250
    ∧ (∀ (remote : String) (cfg : SubnetCfg) (e : String),
        valueString cfg.subnet ≠ "" → valueString cfg.hostname ≠ "" →
        derivedSubnetID (valueString cfg.subnet) = .error e →
        subnetCreateRequests remote cfg =
          .error [⟨"RemoteSubnet4Create",
                   "Unable to parse subnet4 prefix `" ++ valueString cfg.subnet
                     ++ "`, got error: " ++ e⟩])
    ∧ (∀ (remote : String) (cfg : SubnetCfg) (id : Int),
        valueString cfg.subnet ≠ "" → valueString cfg.hostname ≠ "" →
        derivedSubnetID (valueString cfg.subnet) = .ok id →
        subnetCreateRequests remote cfg =
          .ok [remoteSubnet4SetRequest remote [newSubnetOf cfg id]]) := by
  refine ⟨?_, ?_, ?_, ?_, ?_⟩
  · intro P
    unfold derivedSubnetID specSubnetID
    rw [cidrToIDRepl_splitFirst]
  · intro P n₁ n₂ h₁ h₂
    rw [h₁] at h₂
    exact (Except.ok.inj h₂)
  · rfl
  · intro remote cfg e hs hh hd
    simp [subnetCreateRequests, subnetRequiredDiags_nil cfg hs hh, hd]
  · intro remote cfg id hs hh hd
    simp [subnetCreateRequests, subnetRequiredDiags_nil cfg hs hh, hd]

/-- Witness for C1 at concrete inputs: the parse-failure branch on
`not-a-cidr/24` and the success branch on `192.168.225.0/24`. -/
theorem C1_subnet_id_derivation_witness :
    subnetCreateRequests "postgresql"
        { hostname := some "kea-primary.example.com",
          subnet := some "not-a-cidr/24" } =
      .error [⟨"RemoteSubnet4Create",
               "Unable to parse subnet4 prefix `not-a-cidr/24`, got error: "
                 ++ "strconv.Atoi: parsing \"not-a-cidr\": invalid syntax"⟩]
    ∧ subnetCreateRequests "postgresql"
        { hostname := some "kea-primary.example.com",
          subnet := some "192.168.225.0/24" } =
      .ok [remoteSubnet4SetRequest "postgresql"
            [newSubnetOf { hostname := some "kea-primary.example.com",
                           subnet := some "192.168.225.0/24" } 1921682250]] :=
  ⟨C1_subnet_id_derivation.2.2.2.1 "postgresql"
      { hostname := some "kea-primary.example.com", subnet := some "not-a-cidr/24" }
      "strconv.Atoi: parsing \"not-a-cidr\": invalid syntax"
      (by decide) (by decide) (by rfl),
   C1_subnet_id_derivation.2.2.2.2 "postgresql"
      { hostname := some "kea-primary.example.com", subnet := some "192.168.225.0/24" }
      1921682250 (by decide) (by decide) (by rfl)⟩

/-- C2: decoding fails when the body is not a JSON array of responses
or the array is empty; with `result = 0` the call succeeds — decoding
is skipped when no target is supplied, a fully empty `arguments` body
is tolerated, and otherwise `arguments` is decoded into the target;
with any non-zero `result` the call returns exactly the one error
embedding the numeric code and the `text` field, for every possible
target, so `arguments` is never decoded. -/
theorem C2_envelope_decode :
    (∀ (α : Type) (e : String) (target : Option (Json → Except String α)),
      clientDo (.error e) target =
        .error ("checkResponse.json.Unmarshal(" ++ e ++ ")"))
    ∧ (∀ (α : Type) (target : Option (Json → Except String α)),
      clientDo (.ok []) target =
        .error "checkResponse(Unable to find response in [])")
    ∧ (∀ (α : Type) (r : Response) (rest : List Response), r.result = 0 →
      clientDo (α := α) (.ok (r :: rest)) none = .ok (r, none))
    ∧ (∀ (α : Type) (r : Response) (rest : List Response)
        (dec : Json → Except String α), r.result = 0 → r.arguments = none →
      clientDo (.ok (r :: rest)) (some dec) = .ok (r, none))
    ∧ (∀ (α : Type) (r : Response) (rest : List Response)
        (dec : Json → Except String α) (j : Json) (v : α),
        r.result = 0 → r.arguments = some j → dec j = .ok v →
      clientDo (.ok (r :: rest)) (some dec) = .ok (r, some v))
    ∧ (∀ (α : Type) (r : Response) (rest : List Response)
        (target : Option (Json → Except String α)), r.result ≠ 0 →
      clientDo (.ok (r :: rest)) target =
        .error ("result:" ++ toString r.result ++ "(" ++ r.text ++ ")")) := by
  refine ⟨?_, ?_, ?_, ?_, ?_, ?_⟩
  · intro α e target
    simp [clientDo, checkResponse]
  · intro α target
    simp [clientDo, checkResponse]
  · intro α r rest h
    simp [clientDo, checkResponse, h]
  · intro α r rest dec h ha
    simp [clientDo, checkResponse, h, ha]
  · intro α r rest dec j v h ha hv
    simp [clientDo, checkResponse, h, ha, hv]
  · intro α r rest target h
    simp [clientDo, checkResponse, h]

/-- Witness for C2 at concrete inputs: a `result = 0` response with a
payload decoded into the target, and a `result = 1` response turned
into the synthesized error regardless of the supplied target. -/
theorem C2_envelope_decode_witness :
    clientDo (.ok [{ result := 0, text := "ok",
                     arguments := some (.num 7) }]) (some decodeAny) =
      .ok ({ result := 0, text := "ok", arguments := some (.num 7) }, some (.num 7))
    ∧ clientDo (.ok [{ result := 1, text := "boom",
                       arguments := some (.num 7) }]) (some decodeAny) =
      .error "result:1(boom)" :=
  ⟨C2_envelope_decode.2.2.2.2.1 Json
      { result := 0, text := "ok", arguments := some (.num 7) } []
      decodeAny (.num 7) (.num 7) rfl rfl rfl,
   C2_envelope_decode.2.2.2.2.2 Json
      { result := 1, text := "boom", arguments := some (.num 7) } []
      (some decodeAny) (by decide)⟩

/-- C3: for the desired subnet `192.168.225.0/24` with one pool, one
relay and three option values, the create path issues exactly one
`remote-subnet4-set` command whose `subnets` argument holds the object
with `id = 1921682250`, the subnet string, and the pools, relay and
option data verbatim; and on a simulated success response the create
returns a state whose ID is `1921682250`. -/
theorem C3_create_scenario_a :
    subnetCreateRequests "postgresql" scenarioACfg =
      .ok [{ command := "remote-subnet4-set", service := ["dhcp4"],
             arguments := some (.obj
               [("remote", .obj [("type", .str "postgresql")]),
                ("server-tags", .arr [.str "all"]),
                ("subnets", .arr [.obj
                  [("id", .num 1921682250),
                   ("subnet", .str "192.168.225.0/24"),
                   ("shared-network-name", .null),
                   ("pools", .arr [.obj
                      [("pool", .str "192.168.225.50-192.168.225.150")]]),
                   ("option-data", .arr
                      [.obj [("code", .num 3), ("data", .str "192.168.225.1"),
                             ("name", .str "routers"), ("always-send", .bool false)],
                       .obj [("code", .num 15), ("data", .str "example.com"),
                             ("name", .str "domain-name"), ("always-send", .bool false)],
                       .obj [("code", .num 6), ("data", .str "4.2.2.2, 8.8.8.8"),
                             ("name", .str "domain-name-servers"),
                             ("always-send", .bool true)]]),
                   ("relay", .obj
                      [("ip-addresses", .arr [.str "192.168.225.1"])])]])]) }]
    ∧ subnetResourceCreate "postgresql" scenarioACfg scenarioABody =
      .ok { hostname := "kea-primary.example.com", id := 1921682250,
            optionData := scenarioACfg.optionData, pools := scenarioACfg.pools,
            relay := scenarioACfg.relay, subnet := "192.168.225.0/24" } :=
  ⟨rfl, rfl⟩

/-- A prefix of a list is still a prefix after appending on the right. -/
theorem isPrefixOf_append_right {n t : List Char} (suf : List Char)
    (h : n.isPrefixOf t = true) : n.isPrefixOf (t ++ suf) = true := by
  rw [List.isPrefixOf_iff_prefix] at h ⊢
  exact h.trans (t.prefix_append suf)

/-- The empty needle occurs in every list. -/
theorem listContains_nil_left (l : List Char) : listContains [] l = true := by
  induction l with
  | nil => rfl
  | cons c rest ih => simp [listContains, ih]

/-- An occurrence survives appending on the right. -/
theorem listContains_append_right {n h : List Char} (suf : List Char)
    (hc : listContains n h = true) : listContains n (h ++ suf) = true := by
  induction h with
  | nil =>
    cases n with
    | nil => simpa using listContains_nil_left suf
    | cons a as => simp [listContains, List.isPrefixOf] at hc
  | cons c rest ih =>
    simp only [listContains, Bool.or_eq_true] at hc
    simp only [List.cons_append, listContains, Bool.or_eq_true]
    rcases hc with h1 | h2
    · exact Or.inl (by simpa using isPrefixOf_append_right suf h1)
    · exact Or.inr (ih h2)

/-- An occurrence survives prepending on the left. -/
theorem listContains_append_left {n h : List Char} (pre : List Char)
    (hc : listContains n h = true) : listContains n (pre ++ h) = true := by
  induction pre with
  | nil => exact hc
  | cons c rest ih => simp [listContains, ih]

/-- A `"not found"` occurrence in the server text survives the
`result:<code>(<text>)` wrapping of `checkResponse`. -/
theorem containsNotFound_wrap (pre suf text : String)
    (h : containsNotFound text = true) :
    containsNotFound (pre ++ text ++ suf) = true := by
  unfold containsNotFound at h ⊢
  rw [String.data_append, String.data_append]
  exact listContains_append_right _ (listContains_append_left _ h)

/-- C4: a `remote-subnet4-get-by-prefix` call answered with
`result = 3` returns the synthesized not-found error and the zero
subnet at the client layer; the resource read, which filters errors
containing `"not found"`, then observes no error and folds the empty
entity into state. -/
theorem C4_read_not_found_benign :
    ∀ (host pfx text : String) (args : Option Json) (rest : List Response),
      host ≠ "" → pfx ≠ "" → containsNotFound text = true →
      remoteSubnet4GetByPrefixCall
          (.ok ({ result := 3, text := text, arguments := args } :: rest)) =
        .err ("result:3(" ++ text ++ ")")
      ∧ subnetResourceRead { hostname := some host, subnet := some pfx }
          (.ok ({ result := 3, text := text, arguments := args } :: rest)) =
        .ok { hostname := host, id := 0, optionData := [], pools := [],
              relay := [], subnet := "" } := by
  intro host pfx text args rest hh hp hc
  have hcall : remoteSubnet4GetByPrefixCall
      (.ok ({ result := 3, text := text, arguments := args } :: rest)) =
      .err ("result:3(" ++ text ++ ")") := rfl
  refine ⟨hcall, ?_⟩
  have hnil : subnetRequiredDiags { hostname := some host, subnet := some pfx } = [] :=
    subnetRequiredDiags_nil _ (by simpa [valueString] using hp)
      (by simpa [valueString] using hh)
  have hwrap : containsNotFound ("result:3(" ++ text ++ ")") = true :=
    containsNotFound_wrap "result:3(" ")" text hc
  unfold subnetResourceRead
  rw [hnil, hcall]
  simp [hwrap, subnetStateOf, valueString]

/-- Witness for C4 at a concrete absent prefix. -/
theorem C4_read_not_found_benign_witness :
    remoteSubnet4GetByPrefixCall
        (.ok [{ result := 3, text := "IPv4 subnet 10.0.0.0/8 not found." }]) =
      .err "result:3(IPv4 subnet 10.0.0.0/8 not found.)"
    ∧ subnetResourceRead
        { hostname := some "kea-primary.example.com", subnet := some "10.0.0.0/8" }
        (.ok [{ result := 3, text := "IPv4 subnet 10.0.0.0/8 not found." }]) =
      .ok { hostname := "kea-primary.example.com", id := 0, optionData := [],
            pools := [], relay := [], subnet := "" } :=
  C4_read_not_found_benign "kea-primary.example.com" "10.0.0.0/8"
    "IPv4 subnet 10.0.0.0/8 not found." none []
    (by decide) (by decide) (by decide)

/-- C5 counterexample: deleting a reservation the server reports as
`result = 3` ("Host not found.") does NOT complete silently — the
delete path escalates the not-found response into a user-visible
`ReservationDel` diagnostic, refuting the claim that absence is
treated as the goal state. -/
theorem C5_delete_not_found_counterexample :
    reservationResourceDelete
        { hostname := some "kea-primary.example.com",
          reservationHostname := some "pi-hole",
          ipAddress := some "192.168.1.5", subnetID := some 100 }
        (.ok [{ result := 3, text := "Host not found." }]) =
      .failed [⟨"ReservationDel",
                "Unable to delete reservation, got error: result:3(Host not found.)"⟩] :=
  rfl

/-- C5 amended: for every reservation delete whose target does not
exist (`result = 3`), the delete path DOES escalate the response: the
`result:3(<text>)` error from `ReservationDel` is reported as a
user-visible diagnostic — no not-found filtering exists on the delete
path (only the read paths filter the not-found text). -/
theorem C5_delete_escalates_not_found :
    ∀ (host rhost ip text : String) (sid : Int) (args : Option Json)
      (rest : List Response),
      host ≠ "" → rhost ≠ "" → ip ≠ "" → (parseIP ip).isNone = false →
      reservationResourceDelete
          { hostname := some host, reservationHostname := some rhost,
            ipAddress := some ip, subnetID := some sid }
          (.ok ({ result := 3, text := text, arguments := args } :: rest)) =
        .failed [⟨"ReservationDel",
                  "Unable to delete reservation, got error: result:3("
                    ++ text ++ ")"⟩] := by
  intro host rhost ip text sid args rest hh hr hi hip
  unfold reservationResourceDelete
  simp only [Option.isNone_some, valueString, Option.getD_some]
  rw [if_neg (by simp [hh, hr, hi])]
  unfold reservationDelCall reservationDelRequest
  rw [hip]
  rfl

/-- Witness for the amended C5 at concrete inputs. -/
theorem C5_delete_escalates_not_found_witness :
    reservationResourceDelete
        { hostname := some "kea-primary.example.com",
          reservationHostname := some "pi-hole",
          ipAddress := some "192.168.1.5", subnetID := some 100 }
        (.ok [{ result := 3, text := "Host not found." }]) =
      .failed [⟨"ReservationDel",
                "Unable to delete reservation, got error: result:3(Host not found.)"⟩] :=
  C5_delete_escalates_not_found "kea-primary.example.com" "pi-hole"
    "192.168.1.5" "Host not found." 100 none []
    (by decide) (by decide) (by decide) (by decide)

/-- C6: with a `result = 0` response whose `arguments` carry an empty
(or wholly absent) `subnets` list, both `RemoteSubnet4GetByPrefix` and
`RemoteSubnet4GetByID` index `ret.Subnets[0]` unconditionally and
panic with an index-out-of-range runtime error instead of returning an
error or an empty subnet. -/
theorem C6_get_first_subnet_panics :
    remoteSubnet4GetByPrefixCall
        (.ok [{ result := 0, arguments := some (.obj [("subnets", .arr [])]) }]) =
      .crash "index out of range [0] with length 0"
    ∧ remoteSubnet4GetByIDCall
        (.ok [{ result := 0, arguments := some (.obj [("subnets", .arr [])]) }]) =
      .crash "index out of range [0] with length 0"
    ∧ remoteSubnet4GetByPrefixCall
        (.ok [{ result := 0, arguments := some (.obj []) }]) =
      .crash "index out of range [0] with length 0"
    ∧ remoteSubnet4GetByIDCall (.ok [{ result := 0 }]) =
      .crash "index out of range [0] with length 0" :=
  ⟨rfl, rfl, rfl, rfl⟩

/-- The `hw-address` field of a marshalled reservation is always the
struct's `HwAddress` value, whatever the optional fields around it. -/
theorem jGetField_encodeReservation_hw (r : Reservation) :
    jGetField (encodeReservation r) "hw-address" = some (.str r.hwAddress) := by
  show List.lookup "hw-address" _ = _
  by_cases h1 : r.bootFileName = "" <;> by_cases h2 : r.clientID = "" <;>
    by_cases h3 : r.circuitID = "" <;> by_cases h4 : r.duID = "" <;>
      by_cases h5 : r.flexID = "" <;>
        simp [encodeReservation, h1, h2, h3, h4, h5, List.lookup]

/-- `hexDigit` only ever produces a lowercase hex character. -/
theorem hexDigit_mem_lower (n : Nat) :
    hexDigit n ∈ "0123456789abcdef:".data := by
  unfold hexDigit
  by_cases h : n < 16
  · interval_cases n <;> decide
  · have h16 : ("0123456789abcdef".data).length ≤ n := by
      have hlen : ("0123456789abcdef".data).length = 16 := rfl
      omega
    simp [List.getD, List.getElem?_eq_none h16]

/-- Every character of the canonical MAC rendering is a lowercase hex
digit or a colon. -/
theorem macChars_mem {c : Char} : ∀ (bytes : List Nat), c ∈ macChars bytes →
    c ∈ "0123456789abcdef:".data
  | [], h => by simp [macChars] at h
  | [b], h => by
    simp only [macChars, byteHexChars, List.mem_cons, List.not_mem_nil,
      or_false] at h
    rcases h with h | h <;> (subst h; exact hexDigit_mem_lower _)
  | b :: b2 :: rest, h => by
    simp only [macChars, byteHexChars, List.cons_append, List.nil_append,
      List.mem_cons] at h
    rcases h with h | h | h | h
    · subst h; exact hexDigit_mem_lower _
    · subst h; exact hexDigit_mem_lower _
    · subst h; decide
    · exact macChars_mem (b2 :: rest) h

/-- The canonical rendering of any parsed MAC is lowercase
colon-separated hex. -/
theorem isLowerHexColon_macString (bytes : List Nat) :
    isLowerHexColon (macString bytes) = true := by
  show (macChars bytes).all _ = true
  rw [List.all_eq_true]
  intro c hc
  simpa using macChars_mem bytes hc

/-- C7: every syntactically valid MAC is transmitted in the canonical
colon-separated lowercase form produced by `HardwareAddr.String`, so
the uppercase and lowercase spellings of the same address produce the
same transmitted value; a malformed MAC is rejected with
`ErrInvalidMAC` before any request is built. -/
theorem C7_mac_normalization :
    (∀ (res : Reservation) (bytes : List Nat),
      (parseIP res.ipAddress).isNone = false →
      parseMAC res.hwAddress = some bytes →
      sentHwAddress (reservationAddRequest res) = some (macString bytes)
        ∧ isLowerHexColon (macString bytes) = true)
    ∧ sentHwAddress (reservationAddRequest
        { ipAddress := "192.168.1.5", hwAddress := "B8:27:EB:9C:AE:B7" }) =
      some "b8:27:eb:9c:ae:b7"
    ∧ sentHwAddress (reservationAddRequest
        { ipAddress := "192.168.1.5", hwAddress := "b8:27:eb:9c:ae:b7" }) =
      some "b8:27:eb:9c:ae:b7"
    ∧ reservationAddRequest
        { ipAddress := "192.168.1.5", hwAddress := "not-a-mac" } =
      .error .invalidMAC := by
  refine ⟨?_, rfl, rfl, rfl⟩
  intro res bytes hip hmac
  refine ⟨?_, isLowerHexColon_macString bytes⟩
  have hkey : sentHwAddress (reservationAddRequest res) =
      (match jGetField (encodeReservation { res with hwAddress := macString bytes })
          "hw-address" with
        | some (.str s) => some s
        | _ => none) := by
    unfold reservationAddRequest
    rw [hip, hmac]
    exact rfl
  rw [hkey, jGetField_encodeReservation_hw]

/-- Witness for C7 at the concrete uppercase MAC of the spec. -/
theorem C7_mac_normalization_witness :
    sentHwAddress (reservationAddRequest
        { ipAddress := "192.168.1.5", hwAddress := "B8:27:EB:9C:AE:B7" }) =
      some (macString [184, 39, 235, 156, 174, 183])
    ∧ isLowerHexColon (macString [184, 39, 235, 156, 174, 183]) = true :=
  C7_mac_normalization.1
    { ipAddress := "192.168.1.5", hwAddress := "B8:27:EB:9C:AE:B7" }
    [184, 39, 235, 156, 174, 183] (by decide) (by decide)

/-- C8: reservation create and delete reject a non-parseable IP
address with the typed `ErrInvalidIP` before any request is built;
`999.1.1.1` and the empty string fail to parse while `192.168.1.5`
parses; and the delete operation validates only the IP — a valid IP
alone yields the delete request, no MAC is involved at all. -/
theorem C8_ip_validation :
    (∀ res : Reservation, parseIP res.ipAddress = none →
      reservationAddRequest res = .error .invalidIP)
    ∧ (∀ (ip : String) (sid : Int), parseIP ip = none →
      reservationDelRequest ip sid = .error .invalidIP)
    ∧ parseIP "999.1.1.1" = none
    ∧ parseIP "" = none
    ∧ (parseIP "192.168.1.5").isSome = true
    ∧ (∀ (ip : String) (sid : Int), (parseIP ip).isNone = false →
      reservationDelRequest ip sid =
        .ok { command := "reservation-del", service := ["dhcp4"],
              arguments := some (.obj
                [("ip-address", .str ip), ("subnet-id", .num sid)]) }) := by
  refine ⟨?_, ?_, by decide, by decide, by decide, ?_⟩
  · intro res h
    unfold reservationAddRequest
    rw [h]
    exact rfl
  · intro ip sid h
    unfold reservationDelRequest
    rw [h]
    exact rfl
  · intro ip sid h
    unfold reservationDelRequest
    rw [h]
    exact rfl

/-- Witness for C8 at the spec's concrete IP addresses. -/
theorem C8_ip_validation_witness :
    reservationAddRequest
        { ipAddress := "999.1.1.1", hwAddress := "b8:27:eb:9c:ae:b7" } =
      .error .invalidIP
    ∧ reservationDelRequest "" 100 = .error .invalidIP
    ∧ reservationDelRequest "192.168.1.5" 100 =
      .ok { command := "reservation-del", service := ["dhcp4"],
            arguments := some (.obj
              [("ip-address", .str "192.168.1.5"), ("subnet-id", .num 100)]) } :=
  ⟨C8_ip_validation.1
      { ipAddress := "999.1.1.1", hwAddress := "b8:27:eb:9c:ae:b7" } (by decide),
   C8_ip_validation.2.1 "" 100 (by decide),
   C8_ip_validation.2.2.2.2.2 "192.168.1.5" 100 (by decide)⟩

/-- A whole string prepended is a string prefix. -/
theorem goHasPrefix_self_append (p s : String) :
    goHasPrefix (p ++ s) p = true := by
  unfold goHasPrefix
  rw [String.data_append, List.isPrefixOf_iff_prefix]
  exact List.prefix_append _ _

/-- A string prefix survives appending on the right. -/
theorem goHasPrefix_append_right {s p : String} (t : String)
    (h : goHasPrefix s p = true) : goHasPrefix (s ++ t) p = true := by
  unfold goHasPrefix at h ⊢
  rw [String.data_append]
  exact isPrefixOf_append_right _ h

/-- A whole string appended is a string suffix. -/
theorem goHasSuffix_append_self (s p : String) :
    goHasSuffix (s ++ p) p = true := by
  unfold goHasSuffix
  rw [String.data_append, List.isSuffixOf_iff_suffix]
  exact List.suffix_append _ _

/-- Whether a single character is a suffix is decided by the non-empty
right part of an append. -/
theorem single_suffix_append (c : Char) (m l : List Char) (hl : l ≠ []) :
    [c].isSuffixOf (m ++ l) = [c].isSuffixOf l := by
  unfold List.isSuffixOf
  rw [List.reverse_append]
  obtain ⟨x, xs, hx⟩ : ∃ x xs, l.reverse = x :: xs := by
    cases hrev : l.reverse with
    | nil => exact absurd (by simpa using hrev) hl
    | cons x xs => exact ⟨x, xs, rfl⟩
  rw [hx]
  simp [List.isPrefixOf]

/-- C9: every command is POSTed to an HTTPS URL with a trailing slash;
a hostname carrying neither the scheme nor a trailing slash is sent to
exactly `https://<hostname>/`. -/
theorem C9_url_normalization :
    (∀ (c : ClientCfg) (hostname : String) (payload : KeaRequest),
      (commandHTTPRequest c hostname payload).method = "POST"
      ∧ goHasPrefix (commandHTTPRequest c hostname payload).url "https://" = true
      ∧ goHasSuffix (commandHTTPRequest c hostname payload).url "/" = true)
    ∧ (∀ hostname : String, hostname ≠ "" →
        goHasPrefix hostname "https://" = false →
        goHasSuffix hostname "/" = false →
        normalizeURL hostname = "https://" ++ hostname ++ "/")
    ∧ normalizeURL "kea-primary.example.com" = "https://kea-primary.example.com/" := by
  have hspec : ∀ url : String,
      goHasPrefix (normalizeURL url) "https://" = true
        ∧ goHasSuffix (normalizeURL url) "/" = true := by
    intro url
    unfold normalizeURL
    by_cases h1 : goHasPrefix url "https://" = true
    · rw [if_pos h1]
      by_cases h2 : goHasSuffix url "/" = true
      · rw [if_pos h2]
        exact ⟨h1, h2⟩
      · rw [if_neg (by simp [h2])]
        exact ⟨goHasPrefix_append_right "/" h1, goHasSuffix_append_self url "/"⟩
    · rw [if_neg h1]
      by_cases h2 : goHasSuffix ("https://" ++ url) "/" = true
      · rw [if_pos h2]
        exact ⟨goHasPrefix_self_append "https://" url, h2⟩
      · rw [if_neg (by simp [h2])]
        exact ⟨goHasPrefix_append_right "/" (goHasPrefix_self_append "https://" url),
               goHasSuffix_append_self _ "/"⟩
  refine ⟨?_, ?_, rfl⟩
  · intro c hostname payload
    exact ⟨rfl, (hspec hostname).1, (hspec hostname).2⟩
  · intro hostname hne h1 h2
    have hdat : hostname.data ≠ [] := by
      intro hd
      apply hne
      cases hostname with
      | mk d =>
        show String.mk d = String.mk []
        rw [show d = [] from hd]
    have h2' : goHasSuffix ("https://" ++ hostname) "/" = false := by
      unfold goHasSuffix at h2 ⊢
      rw [String.data_append]
      rw [show ("/" : String).data = ['/'] from rfl] at h2 ⊢
      rw [single_suffix_append '/' _ _ hdat]
      exact h2
    unfold normalizeURL
    have hnp : ¬ (goHasPrefix hostname "https://" = true) := by
      simp only [Bool.not_eq_true]
      exact h1
    have hns : ¬ (goHasSuffix ("https://" ++ hostname) "/" = true) := by
      simp only [Bool.not_eq_true]
      exact h2'
    rw [if_neg hnp, if_neg hns]

/-- Witness for C9 at a concrete bare hostname. -/
theorem C9_url_normalization_witness :
    normalizeURL "kea-primary.example.com" = "https://kea-primary.example.com/"
    ∧ (commandHTTPRequest {} "kea-primary.example.com"
        { command := "list-commands" }).method = "POST" :=
  ⟨C9_url_normalization.2.1 "kea-primary.example.com"
      (by decide) (by decide) (by decide),
   (C9_url_normalization.1 {} "kea-primary.example.com"
      { command := "list-commands" }).1⟩

/-- C10: client construction resolves credentials from the explicit
option or, absent one, from `KEA_USERNAME` / `KEA_PASSWORD`, and fails
hard — yielding no usable client — exactly when the resolution does
not produce both a non-empty username and a non-empty password. -/
theorem C10_auth_resolution :
    ∀ (explicit : Option Auth) (getenv : String → String),
      (resolveAuth explicit getenv = none ↔
        (chosenAuth explicit getenv).username = ""
          ∨ (chosenAuth explicit getenv).password = "")
      ∧ (∀ a : Auth, explicit = some a → chosenAuth explicit getenv = a)
      ∧ (explicit = none → chosenAuth explicit getenv =
          { username := getenv "KEA_USERNAME", password := getenv "KEA_PASSWORD" })
      ∧ (∀ a : Auth, resolveAuth explicit getenv = some a →
          a = chosenAuth explicit getenv ∧ a.username ≠ "" ∧ a.password ≠ "") := by
  intro explicit getenv
  refine ⟨?_, ?_, ?_, ?_⟩
  · unfold resolveAuth
    by_cases h : (chosenAuth explicit getenv).username = ""
        ∨ (chosenAuth explicit getenv).password = ""
    · simp [h]
    · simp [h]
  · intro a ha
    simp [chosenAuth, ha]
  · intro ha
    simp [chosenAuth, ha]
  · intro a ha
    unfold resolveAuth at ha
    by_cases h : (chosenAuth explicit getenv).username = ""
        ∨ (chosenAuth explicit getenv).password = ""
    · simp [h] at ha
    · rw [if_neg h] at ha
      push_neg at h
      have hae : chosenAuth explicit getenv = a := Option.some.inj ha
      subst hae
      exact ⟨rfl, h.1, h.2⟩

/-- Witness for C10: explicit credentials are used; missing environment
credentials fail; complete environment credentials succeed. -/
theorem C10_auth_resolution_witness :
    resolveAuth (some { username := "admin", password := "secret" })
        (fun _ => "") = some { username := "admin", password := "secret" }
    ∧ resolveAuth none (fun _ => "") = none
    ∧ chosenAuth none (fun v => if v = "KEA_USERNAME" then "kea" else "pw") =
      { username := "kea", password := "pw" } := by
  refine ⟨?_, ?_, ?_⟩
  · have h := (C10_auth_resolution
      (some { username := "admin", password := "secret" }) (fun _ => "")).1
    rfl
  · exact (C10_auth_resolution none (fun _ => "")).1.mpr (Or.inl rfl)
  · have h := (C10_auth_resolution none
      (fun v => if v = "KEA_USERNAME" then "kea" else "pw")).2.2.1 rfl
    simpa using h

end Kea
